import Mathlib

/-!
Verification of the identity-token and deferred-deletion lifecycle of the
Eco-Letras backend.  The Python source under apps/backend/app is shallowly
embedded below: accounts are records, the database is a list of accounts,
wall-clock instants are integer seconds, and the JWT wire format is an
abstract signed-claims datatype (the spec leaves the on-the-wire encoding
opaque).  Every definition follows the corresponding Python function.
-/

deriving instance DecidableEq for Except

namespace EcoLetras

/-- Wall-clock instants, in integer seconds. -/
abbrev Time := Int

/-- Seconds in n minutes. -/
def minutes (n : Int) : Int := n * 60

/-- Seconds in n hours. -/
def hours (n : Int) : Int := n * 3600

/-- The fields of models/user.py read or written by the token and
deletion lifecycle code (other catalog columns are irrelevant here). -/
structure Account where
  id : Nat
  email : String
  username : String
  hashed_password : String
  is_active : Bool
  is_verified : Bool
  last_login : Option Time
  deletion_requested_at : Option Time
  deletion_scheduled_at : Option Time
deriving DecidableEq, Repr

/-- The claim set carried by a signed token, as built in core/security.py:
a subject, an expiry, a purpose tag stored under the key named type, and
for email-change tokens the new address. -/
structure Claims where
  sub : String
  new_email : Option String
  exp : Time
  type : String
deriving DecidableEq, Repr

/-- Abstract wire form of a JWT: either a well-formed token signed with
some secret, or an arbitrary malformed / unsigned string (which includes
the empty token). -/
inductive Token where
  | signed (claims : Claims) (secret : String)
  | malformed (raw : String)
deriving DecidableEq, Repr

/-- jose jwt.decode with a single secret and algorithm: returns the claims
when the signature verifies and the token is not expired (jose raises
ExpiredSignatureError exactly when exp is strictly before now); any
malformed token or wrong-secret signature fails. -/
def jwt_decode (secret : String) (now : Time) (t : Token) : Option Claims :=
  match t with
  | .malformed _ => none
  | .signed c s => if s = secret then (if c.exp < now then none else some c) else none

/-- Characters admitted by the local part of core/security.py's EMAIL_REGEX. -/
def isEmailLocalChar (c : Char) : Bool :=
  c.isAlpha || c.isDigit || c == '.' || c == '_' || c == '%' || c == '+' || c == '-'

/-- Characters admitted by the domain part of EMAIL_REGEX. -/
def isEmailDomainChar (c : Char) : Bool :=
  c.isAlpha || c.isDigit || c == '.' || c == '-'

/-- Splits a character list at its last dot, returning the pieces before
and after it, or nothing when no dot occurs. -/
def lastDotSplit : List Char → Option (List Char × List Char)
  | [] => none
  | c :: cs =>
    match lastDotSplit cs with
    | some (b, a) => some (c :: b, a)
    | none => if c == '.' then some ([], cs) else none

/-- The domain side of EMAIL_REGEX: one or more domain characters, a dot,
then at least two letters running to the end.  Backtracking makes the
chosen dot necessarily the last one. -/
def emailDomainOk (d : List Char) : Bool :=
  match lastDotSplit d with
  | none => false
  | some (b, a) =>
    !b.isEmpty && b.all isEmailDomainChar && decide (2 ≤ a.length) && a.all (·.isAlpha)

/-- Python str.strip on a character list: drop whitespace from both ends. -/
def stripChars (cs : List Char) : List Char :=
  ((cs.dropWhile Char.isWhitespace).reverse.dropWhile Char.isWhitespace).reverse

/-- Splits a character list at its first at-sign.  Because neither side of
EMAIL_REGEX admits an at-sign, matching the regex is equivalent to
splitting at the first one and checking the two sides. -/
def splitAtSign : List Char → Option (List Char × List Char)
  | [] => none
  | c :: cs =>
    if c == '@' then some ([], cs)
    else
      match splitAtSign cs with
      | some (l, r) => some (c :: l, r)
      | none => none

/-- validate_email from core/security.py: false on the empty string, else
the stripped string must match EMAIL_REGEX (local part, one at-sign,
domain, dot, alphabetic suffix of length at least two). -/
def validate_email (email : String) : Bool :=
  if email = "" then false
  else
    match splitAtSign (stripChars email.data) with
    | none => false
    | some (lp, dom) => !lp.isEmpty && lp.all isEmailLocalChar && emailDomainOk dom

/-- Decimal-digit accumulator behind the model of Python int(). -/
def parseNatAux : List Char → Nat → Option Nat
  | [], acc => some acc
  | c :: cs, acc =>
    if c.isDigit then parseNatAux cs (acc * 10 + (c.toNat - 48)) else none

/-- Python int() applied to the stringified user id carried in a token
subject: the value of a nonempty digit string, none (ValueError) on
anything else. -/
def parseNat (s : String) : Option Nat :=
  if s.data.isEmpty then none else parseNatAux s.data 0

/-- create_password_reset_token: rejects an invalid email (ValueError,
modelled as none), else signs claims with purpose password_reset and a
30-minute expiry. -/
def create_password_reset_token (secret : String) (now : Time) (email : String) :
    Option Token :=
  if email = "" || !validate_email email then none
  else some (.signed
    { sub := email, new_email := none, exp := now + minutes 30, type := "password_reset" }
    secret)

/-- verify_password_reset_token: decodes, then requires the purpose tag
password_reset; returns the subject, or none on any failure. -/
def verify_password_reset_token (secret : String) (now : Time) (t : Token) :
    Option String :=
  match jwt_decode secret now t with
  | none => none
  | some payload => if payload.type = "password_reset" then some payload.sub else none

/-- create_email_verification_token: rejects an invalid email, else signs
claims with purpose email_verification and a 24-hour expiry. -/
def create_email_verification_token (secret : String) (now : Time) (email : String) :
    Option Token :=
  if email = "" || !validate_email email then none
  else some (.signed
    { sub := email, new_email := none, exp := now + hours 24, type := "email_verification" }
    secret)

/-- verify_email_verification_token: decodes, then requires the purpose tag
email_verification; returns the subject, or none on any failure. -/
def verify_email_verification_token (secret : String) (now : Time) (t : Token) :
    Option String :=
  match jwt_decode secret now t with
  | none => none
  | some payload => if payload.type = "email_verification" then some payload.sub else none

/-- create_email_change_token: rejects a zero user id or invalid new email
(ValueError), else signs claims carrying the stringified id, the new email
and purpose email_change, with a 24-hour expiry. -/
def create_email_change_token (secret : String) (now : Time) (user_id : Nat)
    (new_email : String) : Option Token :=
  if user_id = 0 then none
  else if new_email = "" || !validate_email new_email then none
  else some (.signed
    { sub := toString user_id, new_email := some new_email, exp := now + hours 24,
      type := "email_change" } secret)

/-- verify_email_change_token: decodes, requires purpose email_change, a
nonempty subject and new_email, and a numeric subject; returns the user id
and new email, or none on any failure. -/
def verify_email_change_token (secret : String) (now : Time) (t : Token) :
    Option (Nat × String) :=
  match jwt_decode secret now t with
  | none => none
  | some payload =>
    if payload.type ≠ "email_change" then none
    else
      match payload.new_email with
      | none => none
      | some ne =>
        if payload.sub = "" || ne = "" then none
        else
          match parseNat payload.sub with
          | none => none
          | some uid => some (uid, ne)

/-- create_account_deletion_token: no input validation in the source; signs
claims carrying the stringified id and purpose account_deletion, with a
24-hour expiry. -/
def create_account_deletion_token (secret : String) (now : Time) (user_id : Nat) :
    Token :=
  .signed
    { sub := toString user_id, new_email := none, exp := now + hours 24,
      type := "account_deletion" } secret

/-- verify_account_deletion_token: decodes, requires purpose
account_deletion, a nonempty numeric subject; returns the user id, or none
on any failure. -/
def verify_account_deletion_token (secret : String) (now : Time) (t : Token) :
    Option Nat :=
  match jwt_decode secret now t with
  | none => none
  | some payload =>
    if payload.type ≠ "account_deletion" then none
    else if payload.sub = "" then none
    else
      match parseNat payload.sub with
      | none => none
      | some uid => some uid

/-- Replaces every database row carrying the given primary key by the
updated record, as an ORM commit of a mutated fetched object does. -/
def updateById (db : List Account) (i : Nat) (f : Account → Account) : List Account :=
  db.map (fun u => if u.id = i then f u else u)

/-- verify_password from core/security.py: false on an empty plaintext or
hash, else defers to the bcrypt context, modelled by the abstract checker
vp (hashing is an external collaborator). -/
def verify_password (vp : String → String → Bool) (plain hashed : String) : Bool :=
  if plain = "" || hashed = "" then false else vp plain hashed

/-- get_user_by_username from routers/auth.py. -/
def get_user_by_username (db : List Account) (username : String) : Option Account :=
  db.find? (fun u => u.username == username)

/-- get_user_by_email from routers/auth.py. -/
def get_user_by_email (db : List Account) (email : String) : Option Account :=
  db.find? (fun u => u.email == email)

/-- authenticate_user from routers/auth.py: looks the user up by username,
then by email, and checks the password; false (here none) when either
fails. -/
def authenticate_user (vp : String → String → Bool) (db : List Account)
    (username password : String) : Option Account :=
  match (get_user_by_username db username).orElse (fun _ => get_user_by_email db username) with
  | none => none
  | some u => if verify_password vp password u.hashed_password then some u else none

/-- Failure modes of the login endpoint that matter here: wrong
credentials, or a correct password on an unverified account (both HTTP
401 in the source). -/
inductive LoginError where
  | badCredentials
  | notVerified
deriving DecidableEq, Repr

/-- The successful-login mutation of routers/auth.py
login_for_access_token: stamp last_login, and when a deletion was
requested clear both deletion fields (login cancels deletion). -/
def login_success_update (u : Account) (now : Time) : Account :=
  let u1 := { u with last_login := some now }
  if u1.deletion_requested_at.isSome then
    { u1 with deletion_requested_at := none, deletion_scheduled_at := none }
  else u1

/-- login_for_access_token from routers/auth.py, as a state transformer on
the user table: authenticate, reject unverified accounts before any
mutation, else commit the successful-login mutation.  The first component
is the error raised, if any; the second is the table after the request. -/
def login_for_access_token (vp : String → String → Bool) (db : List Account)
    (username password : String) (now : Time) : Option LoginError × List Account :=
  match authenticate_user vp db username password with
  | none => (some .badCredentials, db)
  | some user =>
    if user.is_verified = false then (some .notVerified, db)
    else (none, updateById db user.id (fun _ => login_success_update user now))

/-- Failure mode of the request-deletion endpoint: a deletion request is
already pending (HTTP 400 in the source). -/
inductive RequestError where
  | alreadyRequested
deriving DecidableEq, Repr

/-- request_account_deletion from routers/users.py, on the authorized
account: rejects when deletion_requested_at is already set; otherwise
stamps deletion_requested_at with now, sets deletion_scheduled_at to
now plus 24 hours, and issues an account-deletion token for the
confirmation email.  Returns the account, the scheduled instant and the
token. -/
def request_account_deletion (secret : String) (u : Account) (now : Time) :
    Except RequestError (Account × Time × Token) :=
  if u.deletion_requested_at.isSome then .error .alreadyRequested
  else
    let deletion_time := now + hours 24
    .ok ({ u with deletion_requested_at := some now,
                  deletion_scheduled_at := some deletion_time },
         deletion_time,
         create_account_deletion_token secret now u.id)

/-- Failure modes of the confirm-deletion endpoint in routers/auth.py. -/
inductive ConfirmError where
  | tokenInvalid
  | userNotFound
  | noPendingRequest
deriving DecidableEq, Repr

/-- confirm_account_deletion from routers/auth.py: verify the
account-deletion token, load the user by the id it carries, reject when no
deletion request is pending, else set deletion_scheduled_at to now plus 24
hours.  Returns the updated table and the scheduled instant. -/
def confirm_account_deletion (secret : String) (now : Time) (t : Token)
    (db : List Account) : Except ConfirmError (List Account × Time) :=
  match verify_account_deletion_token secret now t with
  | none => .error .tokenInvalid
  | some user_id =>
    match db.find? (fun u => u.id == user_id) with
    | none => .error .userNotFound
    | some user =>
      if user.deletion_requested_at.isNone then .error .noPendingRequest
      else
        let deletion_time := now + hours 24
        .ok (updateById db user_id (fun u => { u with deletion_scheduled_at := some deletion_time }),
             deletion_time)

/-- Failure mode of the cancel-deletion endpoint: nothing to cancel
(HTTP 400 in the source). -/
inductive CancelError where
  | noScheduledDeletion
deriving DecidableEq, Repr

/-- cancel_account_deletion from routers/users.py, on the authorized
account: rejects when deletion_requested_at is not set; otherwise clears
both deletion fields. -/
def cancel_account_deletion (u : Account) : Except CancelError Account :=
  if u.deletion_requested_at.isNone then .error .noScheduledDeletion
  else .ok { u with deletion_requested_at := none, deletion_scheduled_at := none }

/-- The due-predicate of the sweeper query in
services/deletion_scheduler.py: deletion_scheduled_at is non-null and not
after now. -/
def dueForDeletion (now : Time) (u : Account) : Bool :=
  match u.deletion_scheduled_at with
  | some t => decide (t ≤ now)
  | none => false

/-- An ORM delete of the row with the given primary key. -/
def deleteAccount (db : List Account) (i : Nat) : List Account :=
  db.filter (fun v => decide (v.id ≠ i))

/-- DeletionScheduler.process_pending_deletions: select every account whose
scheduled deletion is due, delete each selected row, and report how many
were processed. -/
def process_pending_deletions (db : List Account) (now : Time) : List Account × Nat :=
  let users_to_delete := db.filter (dueForDeletion now)
  (users_to_delete.foldl (fun acc u => deleteAccount acc u.id) db, users_to_delete.length)

/-- The filter of DeletionScheduler.cleanup_expired_requests: a deletion
request exists, was never confirmed, and the request instant is not after
now.  The source's comment announces a 24-hour age threshold, but the
executed query compares deletion_requested_at against now itself. -/
def expiredRequest (now : Time) (u : Account) : Bool :=
  u.deletion_requested_at.isSome && u.deletion_scheduled_at.isNone &&
    (match u.deletion_requested_at with
     | some t => decide (t ≤ now)
     | none => false)

/-- DeletionScheduler.cleanup_expired_requests: clear
deletion_requested_at on every row matched by the filter above and report
how many were cleared. -/
def cleanup_expired_requests (db : List Account) (now : Time) : List Account × Nat :=
  ((db.map (fun u => if expiredRequest now u then { u with deletion_requested_at := none } else u)),
   (db.filter (expiredRequest now)).length)

/-- The constant response of routers/password_reset.py
request_password_reset, returned on every path. -/
def password_reset_request_message : String :=
  "Si el correo electrónico existe en nuestro sistema, recibirás instrucciones para restablecer tu contraseña."

/-- request_password_reset from routers/password_reset.py: look the user up
by email; when found and active, mint a reset token and queue the reset
email; in every case (including the caught token ValueError) answer with
the one standard message.  Returns the message and the queued emails. -/
def request_password_reset (secret : String) (now : Time) (db : List Account)
    (email : String) : String × List (String × Token) :=
  match db.find? (fun u => u.email == email) with
  | some user =>
    if user.is_active then
      match create_password_reset_token secret now user.email with
      | some tok => (password_reset_request_message, [(user.email, tok)])
      | none => (password_reset_request_message, [])
    else (password_reset_request_message, [])
  | none => (password_reset_request_message, [])

/-- A concrete verified account with no deletion activity, for witnesses. -/
def accActive : Account :=
  { id := 1, email := "a@b.co", username := "alice", hashed_password := "h",
    is_active := true, is_verified := true, last_login := none,
    deletion_requested_at := none, deletion_scheduled_at := none }

/-- The same account after a request at instant 0 confirmed for instant
86400, for witnesses. -/
def accScheduled : Account :=
  { accActive with deletion_requested_at := some 0, deletion_scheduled_at := some 86400 }

/-- A concrete account-deletion token for user 1, signed with secret s and
expiring at instant 1000000. -/
def tokDel1 : Token :=
  .signed { sub := "1", new_email := none, exp := 1000000, type := "account_deletion" } "s"

/-- An unverified account that has requested and confirmed deletion, for
witnesses. -/
def accUnverified : Account :=
  { accScheduled with is_verified := false }

/-- A concrete password checker (plain equality) standing in for bcrypt in
witnesses; the theorems quantify over the checker. -/
def vpEq : String → String → Bool := fun p h => p == h

/-- Invariant I1 of the spec, as an executable predicate on one account:
deletion_scheduled_at is non-null only if deletion_requested_at is
non-null and not after it. -/
def i1 (u : Account) : Bool :=
  match u.deletion_scheduled_at, u.deletion_requested_at with
  | none, _ => true
  | some s, some r => decide (r ≤ s)
  | some _, none => false

/-- Clock-monotonicity bookkeeping: any pending request was made no later
than the current instant. -/
def reqBound (u : Account) (t : Time) : Bool :=
  match u.deletion_requested_at with
  | some r => decide (r ≤ t)
  | none => true

/-- One per-account transition of the deletion lifecycle, pairing the
account with the instant of the last operation; operations happen at
nondecreasing instants.  The sweeper and cleanup transitions run the
database-level code on the singleton table of this account; a sweep
transition exists only when the account survives it. -/
inductive LifecycleStep : Account × Time → Account × Time → Prop where
  | request (secret : String) (u u' : Account) (t t' dt : Time) (tok : Token) :
      t ≤ t' → request_account_deletion secret u t' = .ok (u', dt, tok) →
      LifecycleStep (u, t) (u', t')
  | confirm (secret : String) (u u' : Account) (t t' dt : Time) (tok : Token) :
      t ≤ t' → confirm_account_deletion secret t' tok [u] = .ok ([u'], dt) →
      LifecycleStep (u, t) (u', t')
  | cancel (u u' : Account) (t t' : Time) :
      t ≤ t' → cancel_account_deletion u = .ok u' →
      LifecycleStep (u, t) (u', t')
  | login (vp : String → String → Bool) (u u' : Account) (t t' : Time)
      (username password : String) :
      t ≤ t' → login_for_access_token vp [u] username password t' = (none, [u']) →
      LifecycleStep (u, t) (u', t')
  | sweep (u u' : Account) (t t' : Time) :
      t ≤ t' → (process_pending_deletions [u] t').1 = [u'] →
      LifecycleStep (u, t) (u', t')
  | cleanup (u u' : Account) (t t' : Time) :
      t ≤ t' → (cleanup_expired_requests [u] t').1 = [u'] →
      LifecycleStep (u, t) (u', t')

/-- Reflexive-transitive closure of the lifecycle transitions. -/
inductive LifecycleReachable : Account × Time → Account × Time → Prop where
  | refl (s : Account × Time) : LifecycleReachable s s
  | tail {s1 s2 s3 : Account × Time} :
      LifecycleReachable s1 s2 → LifecycleStep s2 s3 → LifecycleReachable s1 s3

/-- A concrete password-reset token for witnesses: subject a at b.co,
signed with secret s at instant 0. -/
def tokReset : Token :=
  .signed { sub := "a@b.co", new_email := none, exp := 1800, type := "password_reset" } "s"

/-- A concrete email-verification token for witnesses. -/
def tokVerify : Token :=
  .signed { sub := "a@b.co", new_email := none, exp := 86400, type := "email_verification" } "s"

/-- A concrete email-change token for witnesses. -/
def tokChange : Token :=
  .signed { sub := "1", new_email := some "c@d.co", exp := 86400, type := "email_change" } "s"

/-- Claim C1, counterexample: on an account with no pending request,
request_account_deletion at instant 0 returns an account whose
deletion_scheduled_at is 86400, not null, so the scheduled instant does
not remain null until confirmation. -/
theorem request_deletion_not_null_schedule_cex :
    request_account_deletion "s" accActive 0 =
      .ok ({ accActive with deletion_requested_at := some 0,
                            deletion_scheduled_at := some 86400 },
           86400,
           .signed { sub := "1", new_email := none, exp := 86400, type := "account_deletion" } "s") ∧
    (some (86400 : Time)) ≠ none :=
  ⟨rfl, by decide⟩

/-- Claim C1, amended: for every account with deletion_requested_at null,
request_account_deletion sets deletion_requested_at to now and, in the
same step, sets deletion_scheduled_at to now plus 24 hours (it does not
stay null until confirmation), issuing an account-deletion token. -/
theorem request_deletion_sets_requested_and_schedules (secret : String) (u : Account)
    (now : Time) (h : u.deletion_requested_at = none) :
    request_account_deletion secret u now =
      .ok ({ u with deletion_requested_at := some now,
                    deletion_scheduled_at := some (now + hours 24) },
           now + hours 24, create_account_deletion_token secret now u.id) := by
  simp [request_account_deletion, h]

/-- Claim C1, witness: the amended statement evaluated on a concrete
account at instant 0. -/
theorem request_deletion_sets_requested_and_schedules_witness :
    request_account_deletion "s" accActive 0 =
      .ok ({ accActive with deletion_requested_at := some 0,
                            deletion_scheduled_at := some (0 + hours 24) },
           0 + hours 24, create_account_deletion_token "s" 0 accActive.id) :=
  request_deletion_sets_requested_and_schedules "s" accActive 0 rfl

/-- Claim C4, counterexample: an account already in the scheduled state
(request at 0, scheduled for 86400) accepts a second confirmation at
instant 1000 and reschedules deletion for 87400, pushing the deadline
forward instead of rejecting the repeat confirmation. -/
theorem confirm_twice_pushes_deadline_cex :
    confirm_account_deletion "s" 1000 tokDel1 [accScheduled] =
      .ok ([{ accScheduled with deletion_scheduled_at := some 87400 }], 87400) ∧
    (87400 : Time) ≠ 86400 :=
  ⟨by decide, by decide⟩

/-- Claim C4, amended: with a token that verifies and resolves to an
account, confirmation fails with NoPendingRequest exactly when
deletion_requested_at is null; when a request is pending (even one already
confirmed and scheduled) the confirmation succeeds and overwrites
deletion_scheduled_at with now plus 24 hours, so a repeat confirmation
pushes the deadline forward. -/
theorem confirm_deletion_guard_and_reschedule (secret : String) (now : Time) (t : Token)
    (db : List Account) (uid : Nat) (u : Account)
    (hv : verify_account_deletion_token secret now t = some uid)
    (hf : db.find? (fun v => v.id == uid) = some u) :
    (u.deletion_requested_at = none →
        confirm_account_deletion secret now t db = .error .noPendingRequest) ∧
    (u.deletion_requested_at ≠ none →
        confirm_account_deletion secret now t db =
          .ok (updateById db uid
                 (fun v => { v with deletion_scheduled_at := some (now + hours 24) }),
               now + hours 24)) := by
  constructor
  · intro h
    simp [confirm_account_deletion, hv, hf, h]
  · intro h
    have hx : u.deletion_requested_at.isNone = false := by
      cases hy : u.deletion_requested_at with
      | none => exact absurd hy h
      | some _ => rfl
    simp [confirm_account_deletion, hv, hf, hx]

/-- Claim C4, witness: the amended statement evaluated concretely, once on
an account with no pending request (rejected) and once on an account
already scheduled (accepted and rescheduled). -/
theorem confirm_deletion_guard_and_reschedule_witness :
    confirm_account_deletion "s" 1000 tokDel1 [accActive] = .error .noPendingRequest ∧
    confirm_account_deletion "s" 1000 tokDel1 [accScheduled] =
      .ok (updateById [accScheduled] 1
             (fun v => { v with deletion_scheduled_at := some (1000 + hours 24) }),
           1000 + hours 24) :=
  ⟨(confirm_deletion_guard_and_reschedule "s" 1000 tokDel1 [accActive] 1 accActive
      (by decide) (by decide)).1 rfl,
   (confirm_deletion_guard_and_reschedule "s" 1000 tokDel1 [accScheduled] 1 accScheduled
      (by decide) (by decide)).2 (by decide)⟩

/-- Claim C5, counterexample: cancelling a scheduled deletion succeeds,
but cancelling again immediately fails with an error instead of
succeeding as a no-op, so two consecutive cancels do not share the success
outcome of one. -/
theorem cancel_deletion_second_call_fails_cex :
    cancel_account_deletion accScheduled =
      .ok { accScheduled with deletion_requested_at := none,
                              deletion_scheduled_at := none } ∧
    cancel_account_deletion
      { accScheduled with deletion_requested_at := none,
                          deletion_scheduled_at := none } =
      .error .noScheduledDeletion :=
  ⟨rfl, rfl⟩

/-- Claim C5, amended: cancel_account_deletion clears both deletion fields
when deletion_requested_at is set, but when deletion_requested_at is null
it fails with an HTTP 400 error rather than succeeding as a no-op (and
clears nothing), so of two consecutive cancels the second fails even
though the account state already has both fields null. -/
theorem cancel_deletion_clears_or_errors (u : Account) :
    (u.deletion_requested_at ≠ none →
        cancel_account_deletion u =
          .ok { u with deletion_requested_at := none, deletion_scheduled_at := none }) ∧
    (u.deletion_requested_at = none →
        cancel_account_deletion u = .error .noScheduledDeletion) := by
  constructor
  · intro h
    have hx : u.deletion_requested_at.isNone = false := by
      cases hy : u.deletion_requested_at with
      | none => exact absurd hy h
      | some _ => rfl
    unfold cancel_account_deletion
    rw [hx]
    rfl
  · intro h
    unfold cancel_account_deletion
    rw [h]
    rfl

/-- Claim C5, witness: the amended statement evaluated concretely on a
scheduled account and on an inactive-request account. -/
theorem cancel_deletion_clears_or_errors_witness :
    cancel_account_deletion accScheduled =
      .ok { accScheduled with deletion_requested_at := none,
                              deletion_scheduled_at := none } ∧
    cancel_account_deletion accActive = .error .noScheduledDeletion :=
  ⟨(cancel_deletion_clears_or_errors accScheduled).1 (by decide),
   (cancel_deletion_clears_or_errors accActive).2 rfl⟩

/-- Claim C6: an unconfirmed deletion request made one hour before the
sweep (requested at 82800, cleanup at 86400, far younger than the 24-hour
age the code's own comment announces) is nevertheless cleared by
cleanup_expired_requests, which filters on request-instant not after now
instead of on age. -/
theorem cleanup_clears_young_request :
    cleanup_expired_requests
      [{ accActive with deletion_requested_at := some 82800 }] 86400 =
      ([accActive], 1) :=
  rfl

/-- Claim C10: an unverified account with a pending or scheduled deletion
cannot cancel it by logging in: even with the correct password the login
endpoint answers with the verification error raised before any mutation,
and the user table — deletion fields included — is returned unchanged. -/
theorem unverified_login_rejected_preserves_deletion
    (vp : String → String → Bool) (db : List Account) (username password : String)
    (now : Time) (u : Account)
    (hauth : authenticate_user vp db username password = some u)
    (hver : u.is_verified = false)
    (hdel : u.deletion_requested_at.isSome = true) :
    login_for_access_token vp db username password now = (some .notVerified, db) := by
  simp [login_for_access_token, hauth, hver]

/-- Claim C10, witness: the statement evaluated on a concrete unverified
account with a scheduled deletion and a correct password. -/
theorem unverified_login_rejected_preserves_deletion_witness :
    login_for_access_token vpEq [accUnverified] "alice" "h" 0 =
      (some .notVerified, [accUnverified]) :=
  unverified_login_rejected_preserves_deletion vpEq [accUnverified] "alice" "h" 0
    accUnverified (by decide) rfl rfl

/-- The password-reset request endpoint answers with the one standard
message on every control path. -/
theorem request_password_reset_message_constant (secret : String) (now : Time)
    (db : List Account) (email : String) :
    (request_password_reset secret now db email).1 = password_reset_request_message := by
  unfold request_password_reset
  cases db.find? (fun u => u.email == email) with
  | none => rfl
  | some user =>
    by_cases hA : user.is_active = true
    · simp only [hA, if_true]
      cases create_password_reset_token secret now user.email with
      | none => rfl
      | some tok => rfl
    · simp only [hA, if_false]
      simp at hA
      simp [hA]

/-- Claim C9: for a password-reset request on an email that belongs to an
account and one that belongs to none, the endpoint returns the same
success message, so the response does not reveal whether the account
exists. -/
theorem password_reset_uniform_message (secret : String) (now : Time)
    (db : List Account) (e1 e2 : String)
    (h1 : (db.find? (fun u => u.email == e1)).isSome = true)
    (h2 : (db.find? (fun u => u.email == e2)).isNone = true) :
    (request_password_reset secret now db e1).1 =
      (request_password_reset secret now db e2).1 := by
  rw [request_password_reset_message_constant, request_password_reset_message_constant]

/-- Claim C9, witness: the statement evaluated on a concrete one-account
table, one email present and one absent. -/
theorem password_reset_uniform_message_witness :
    (request_password_reset "s" 0 [accActive] "a@b.co").1 =
      (request_password_reset "s" 0 [accActive] "z@b.co").1 :=
  password_reset_uniform_message "s" 0 [accActive] "a@b.co" "z@b.co"
    (by decide) (by decide)

/-- Deleting, in turn, the row of each account in a list amounts to one
filter keeping the rows whose key occurs in none of them. -/
theorem foldl_deleteAccount_eq_filter (L db : List Account) :
    L.foldl (fun acc u => deleteAccount acc u.id) db =
      db.filter (fun v => decide (v.id ∉ L.map Account.id)) := by
  induction L generalizing db with
  | nil =>
    simp
  | cons u L ih =>
    rw [List.foldl_cons, ih (deleteAccount db u.id)]
    unfold deleteAccount
    rw [List.filter_filter]
    apply List.filter_congr
    intro v _
    simp [not_or]
    exact Bool.and_comm _ _

/-- Claim C3: on a table with distinct primary keys, one sweep deletes
exactly the accounts whose deletion_scheduled_at is non-null and not
after now — the surviving table is the original one filtered to the
not-due rows, each unchanged — and reports the number of due rows. -/
theorem sweep_deletes_exactly_due (db : List Account) (now : Time)
    (hids : (db.map Account.id).Nodup) :
    (process_pending_deletions db now).1 =
      db.filter (fun u => !dueForDeletion now u) ∧
    (process_pending_deletions db now).2 =
      (db.filter (dueForDeletion now)).length := by
  refine ⟨?_, rfl⟩
  show (db.filter (dueForDeletion now)).foldl (fun acc u => deleteAccount acc u.id) db =
    db.filter (fun u => !dueForDeletion now u)
  rw [foldl_deleteAccount_eq_filter]
  apply List.filter_congr
  intro v hv
  by_cases hd : dueForDeletion now v = true
  · rw [hd]
    have hmem : v.id ∈ (db.filter (dueForDeletion now)).map Account.id :=
      List.mem_map_of_mem Account.id (List.mem_filter.mpr ⟨hv, hd⟩)
    rw [decide_eq_false (not_not_intro hmem)]
    rfl
  · have hd' : dueForDeletion now v = false := Bool.eq_false_iff.mpr hd
    rw [hd']
    rw [decide_eq_true]
    · rfl
    · intro hmem
      rcases List.mem_map.mp hmem with ⟨w, hw, hwid⟩
      rcases List.mem_filter.mp hw with ⟨hwdb, hwdue⟩
      have : w = v := List.inj_on_of_nodup_map hids hwdb hv hwid
      rw [this] at hwdue
      exact hd hwdue

/-- Claim C3, witness: the statement evaluated on a concrete three-account
table at instant 0 — one due (scheduled an hour before), one not due
(scheduled an hour later), one with no deletion activity. -/
theorem sweep_deletes_exactly_due_witness :
    (process_pending_deletions
      [{ accActive with id := 1, deletion_requested_at := some (-7200),
                        deletion_scheduled_at := some (-3600) },
       { accActive with id := 2, deletion_requested_at := some (-7200),
                        deletion_scheduled_at := some 3600 },
       { accActive with id := 3 }] 0).1 =
      List.filter (fun u => !dueForDeletion 0 u)
        [{ accActive with id := 1, deletion_requested_at := some (-7200),
                          deletion_scheduled_at := some (-3600) },
         { accActive with id := 2, deletion_requested_at := some (-7200),
                          deletion_scheduled_at := some 3600 },
         { accActive with id := 3 }] ∧
    (process_pending_deletions
      [{ accActive with id := 1, deletion_requested_at := some (-7200),
                        deletion_scheduled_at := some (-3600) },
       { accActive with id := 2, deletion_requested_at := some (-7200),
                        deletion_scheduled_at := some 3600 },
       { accActive with id := 3 }] 0).2 =
      (List.filter (dueForDeletion 0)
        [{ accActive with id := 1, deletion_requested_at := some (-7200),
                          deletion_scheduled_at := some (-3600) },
         { accActive with id := 2, deletion_requested_at := some (-7200),
                          deletion_scheduled_at := some 3600 },
         { accActive with id := 3 }]).length :=
  sweep_deletes_exactly_due _ 0 (by decide)

/-- An account returned by authenticate_user is a row of the table. -/
theorem authenticate_user_mem (vp : String → String → Bool) (db : List Account)
    (username password : String) (u : Account)
    (h : authenticate_user vp db username password = some u) : u ∈ db := by
  unfold authenticate_user at h
  cases h1 : get_user_by_username db username with
  | some w =>
    rw [h1] at h
    simp only [Option.orElse] at h
    unfold get_user_by_username at h1
    split at h
    · exact (Option.some.inj h) ▸ List.mem_of_find?_eq_some h1
    · cases h
  | none =>
    rw [h1] at h
    cases h2 : get_user_by_email db username with
    | some w =>
      rw [h2] at h
      simp only [Option.orElse] at h
      unfold get_user_by_email at h2
      split at h
      · exact (Option.some.inj h) ▸ List.mem_of_find?_eq_some h2
      · cases h
    | none =>
      rw [h2] at h
      simp only [Option.orElse] at h
      cases h

/-- A row that no due row shares a key with survives the sweep. -/
theorem mem_sweep_of_not_due (db : List Account) (now : Time) (v : Account)
    (hv : v ∈ db) (hnd : ∀ w ∈ db, w.id = v.id → dueForDeletion now w = false) :
    v ∈ (process_pending_deletions db now).1 := by
  show v ∈ (db.filter (dueForDeletion now)).foldl (fun acc u => deleteAccount acc u.id) db
  rw [foldl_deleteAccount_eq_filter]
  apply List.mem_filter.mpr
  refine ⟨hv, ?_⟩
  apply decide_eq_true
  intro hmem
  rcases List.mem_map.mp hmem with ⟨w, hw, hwid⟩
  rcases List.mem_filter.mp hw with ⟨hwdb, hwdue⟩
  rw [hnd w hwdb hwid] at hwdue
  cases hwdue

/-- The successful-login mutation does not change the primary key. -/
theorem login_success_update_id (u : Account) (now : Time) :
    (login_success_update u now).id = u.id := by
  by_cases h : u.deletion_requested_at.isSome = true <;> simp [login_success_update, h]

/-- Claim C2: when authentication succeeds on a verified account with a
pending or scheduled deletion, the login commits a table in which that
account has both deletion fields cleared, and a sweep run at any instant
afterwards keeps the account. -/
theorem login_cancel_then_sweep_spares
    (vp : String → String → Bool) (db : List Account) (username password : String)
    (now now2 : Time) (u : Account)
    (hauth : authenticate_user vp db username password = some u)
    (hver : u.is_verified = true)
    (hreq : u.deletion_requested_at.isSome = true) :
    login_for_access_token vp db username password now =
      (none, updateById db u.id (fun _ => login_success_update u now)) ∧
    (login_success_update u now).deletion_requested_at = none ∧
    (login_success_update u now).deletion_scheduled_at = none ∧
    login_success_update u now ∈
      (process_pending_deletions
        (updateById db u.id (fun _ => login_success_update u now)) now2).1 := by
  have hclear : (login_success_update u now).deletion_requested_at = none ∧
      (login_success_update u now).deletion_scheduled_at = none := by
    constructor <;> simp [login_success_update, hreq]
  refine ⟨by simp [login_for_access_token, hauth, hver], hclear.1, hclear.2, ?_⟩
  apply mem_sweep_of_not_due
  · unfold updateById
    have hmem := List.mem_map_of_mem
      (fun x => if x.id = u.id then login_success_update u now else x)
      (authenticate_user_mem vp db username password u hauth)
    simpa using hmem
  · intro w hw hwid
    unfold updateById at hw
    rcases List.mem_map.mp hw with ⟨x, _, hxe⟩
    by_cases hxid : x.id = u.id
    · rw [if_pos hxid] at hxe
      rw [← hxe]
      simp [dueForDeletion, login_success_update, hreq]
    · rw [if_neg hxid] at hxe
      rw [← hxe] at hwid
      rw [login_success_update_id] at hwid
      exact absurd hwid hxid

/-- Claim C2, witness: the statement evaluated on a concrete scheduled
verified account logging in at instant 10, with the sweep also at 10. -/
theorem login_cancel_then_sweep_spares_witness :
    login_for_access_token vpEq [accScheduled] "alice" "h" 10 =
      (none, updateById [accScheduled] accScheduled.id
        (fun _ => login_success_update accScheduled 10)) ∧
    (login_success_update accScheduled 10).deletion_requested_at = none ∧
    (login_success_update accScheduled 10).deletion_scheduled_at = none ∧
    login_success_update accScheduled 10 ∈
      (process_pending_deletions
        (updateById [accScheduled] accScheduled.id
          (fun _ => login_success_update accScheduled 10)) 10).1 :=
  login_cancel_then_sweep_spares vpEq [accScheduled] "alice" "h" 10 10 accScheduled
    (by decide) rfl rfl

/-- Decoding a signed token only ever yields the claims it was signed
over. -/
theorem jwt_decode_signed_inv (secret : String) (now : Time) (c : Claims) (s2 : String)
    (c' : Claims) (h : jwt_decode secret now (.signed c s2) = some c') : c' = c := by
  have h' : (if s2 = secret then (if c.exp < now then (none : Option Claims) else some c)
      else none) = some c' := h
  by_cases hs : s2 = secret
  · rw [if_pos hs] at h'
    by_cases he : c.exp < now
    · rw [if_pos he] at h'
      cases h'
    · rw [if_neg he] at h'
      exact (Option.some.inj h').symm
  · rw [if_neg hs] at h'
    cases h'

/-- The password-reset verifier answers none whenever every decodable
claim set carries a different purpose tag. -/
theorem verify_password_reset_token_none (secret : String) (now : Time) (t : Token)
    (h : ∀ c, jwt_decode secret now t = some c → c.type ≠ "password_reset") :
    verify_password_reset_token secret now t = none := by
  unfold verify_password_reset_token
  cases hd : jwt_decode secret now t with
  | none => rfl
  | some c => simp [h c hd]

/-- The email-verification verifier answers none whenever every decodable
claim set carries a different purpose tag. -/
theorem verify_email_verification_token_none (secret : String) (now : Time) (t : Token)
    (h : ∀ c, jwt_decode secret now t = some c → c.type ≠ "email_verification") :
    verify_email_verification_token secret now t = none := by
  unfold verify_email_verification_token
  cases hd : jwt_decode secret now t with
  | none => rfl
  | some c => simp [h c hd]

/-- The email-change verifier answers none whenever every decodable claim
set carries a different purpose tag. -/
theorem verify_email_change_token_none (secret : String) (now : Time) (t : Token)
    (h : ∀ c, jwt_decode secret now t = some c → c.type ≠ "email_change") :
    verify_email_change_token secret now t = none := by
  unfold verify_email_change_token
  cases hd : jwt_decode secret now t with
  | none => rfl
  | some c => simp [h c hd]

/-- The account-deletion verifier answers none whenever every decodable
claim set carries a different purpose tag. -/
theorem verify_account_deletion_token_none (secret : String) (now : Time) (t : Token)
    (h : ∀ c, jwt_decode secret now t = some c → c.type ≠ "account_deletion") :
    verify_account_deletion_token secret now t = none := by
  unfold verify_account_deletion_token
  cases hd : jwt_decode secret now t with
  | none => rfl
  | some c => simp [h c hd]

/-- Claim C7: a token minted for any one of the four purposes is rejected
(answer none, no exception) by each of the three verifiers of the other
purposes — all twelve cross pairs — and every verifier also answers none
on a malformed or unsigned token, on a token signed with a different
secret, and on an expired token. -/
theorem token_purpose_isolation (secret : String) (now now2 : Time)
    (email newEmail : String) (uid : Nat) (tpr tev tec : Token)
    (hpr : create_password_reset_token secret now email = some tpr)
    (hev : create_email_verification_token secret now email = some tev)
    (hec : create_email_change_token secret now uid newEmail = some tec) :
    (verify_email_verification_token secret now2 tpr = none ∧
     verify_email_change_token secret now2 tpr = none ∧
     verify_account_deletion_token secret now2 tpr = none) ∧
    (verify_password_reset_token secret now2 tev = none ∧
     verify_email_change_token secret now2 tev = none ∧
     verify_account_deletion_token secret now2 tev = none) ∧
    (verify_password_reset_token secret now2 tec = none ∧
     verify_email_verification_token secret now2 tec = none ∧
     verify_account_deletion_token secret now2 tec = none) ∧
    (verify_password_reset_token secret now2
        (create_account_deletion_token secret now uid) = none ∧
     verify_email_verification_token secret now2
        (create_account_deletion_token secret now uid) = none ∧
     verify_email_change_token secret now2
        (create_account_deletion_token secret now uid) = none) ∧
    (∀ raw : String,
      verify_password_reset_token secret now2 (.malformed raw) = none ∧
      verify_email_verification_token secret now2 (.malformed raw) = none ∧
      verify_email_change_token secret now2 (.malformed raw) = none ∧
      verify_account_deletion_token secret now2 (.malformed raw) = none) ∧
    (∀ (c : Claims) (s2 : String), s2 ≠ secret →
      verify_password_reset_token secret now2 (.signed c s2) = none ∧
      verify_email_verification_token secret now2 (.signed c s2) = none ∧
      verify_email_change_token secret now2 (.signed c s2) = none ∧
      verify_account_deletion_token secret now2 (.signed c s2) = none) ∧
    (∀ c : Claims, c.exp < now2 →
      verify_password_reset_token secret now2 (.signed c secret) = none ∧
      verify_email_verification_token secret now2 (.signed c secret) = none ∧
      verify_email_change_token secret now2 (.signed c secret) = none ∧
      verify_account_deletion_token secret now2 (.signed c secret) = none) := by
  have hpr' : tpr = Token.signed
      { sub := email, new_email := none, exp := now + minutes 30,
        type := "password_reset" } secret := by
    unfold create_password_reset_token at hpr
    split at hpr
    · cases hpr
    · exact (Option.some.inj hpr).symm
  have hev' : tev = Token.signed
      { sub := email, new_email := none, exp := now + hours 24,
        type := "email_verification" } secret := by
    unfold create_email_verification_token at hev
    split at hev
    · cases hev
    · exact (Option.some.inj hev).symm
  have hec' : tec = Token.signed
      { sub := toString uid, new_email := some newEmail, exp := now + hours 24,
        type := "email_change" } secret := by
    unfold create_email_change_token at hec
    split at hec
    · cases hec
    · split at hec
      · cases hec
      · exact (Option.some.inj hec).symm
  subst hpr' hev' hec'
  refine ⟨⟨?_, ?_, ?_⟩, ⟨?_, ?_, ?_⟩, ⟨?_, ?_, ?_⟩, ⟨?_, ?_, ?_⟩, ?_, ?_, ?_⟩
  · exact verify_email_verification_token_none _ _ _
      (fun c hc => by
        rw [jwt_decode_signed_inv _ _ _ _ _ hc]
        exact (by decide : ("password_reset" : String) ≠ "email_verification"))
  · exact verify_email_change_token_none _ _ _
      (fun c hc => by
        rw [jwt_decode_signed_inv _ _ _ _ _ hc]
        exact (by decide : ("password_reset" : String) ≠ "email_change"))
  · exact verify_account_deletion_token_none _ _ _
      (fun c hc => by
        rw [jwt_decode_signed_inv _ _ _ _ _ hc]
        exact (by decide : ("password_reset" : String) ≠ "account_deletion"))
  · exact verify_password_reset_token_none _ _ _
      (fun c hc => by
        rw [jwt_decode_signed_inv _ _ _ _ _ hc]
        exact (by decide : ("email_verification" : String) ≠ "password_reset"))
  · exact verify_email_change_token_none _ _ _
      (fun c hc => by
        rw [jwt_decode_signed_inv _ _ _ _ _ hc]
        exact (by decide : ("email_verification" : String) ≠ "email_change"))
  · exact verify_account_deletion_token_none _ _ _
      (fun c hc => by
        rw [jwt_decode_signed_inv _ _ _ _ _ hc]
        exact (by decide : ("email_verification" : String) ≠ "account_deletion"))
  · exact verify_password_reset_token_none _ _ _
      (fun c hc => by
        rw [jwt_decode_signed_inv _ _ _ _ _ hc]
        exact (by decide : ("email_change" : String) ≠ "password_reset"))
  · exact verify_email_verification_token_none _ _ _
      (fun c hc => by
        rw [jwt_decode_signed_inv _ _ _ _ _ hc]
        exact (by decide : ("email_change" : String) ≠ "email_verification"))
  · exact verify_account_deletion_token_none _ _ _
      (fun c hc => by
        rw [jwt_decode_signed_inv _ _ _ _ _ hc]
        exact (by decide : ("email_change" : String) ≠ "account_deletion"))
  · exact verify_password_reset_token_none _ _ _
      (fun c hc => by
        rw [jwt_decode_signed_inv _ _ _ _ _ hc]
        exact (by decide : ("account_deletion" : String) ≠ "password_reset"))
  · exact verify_email_verification_token_none _ _ _
      (fun c hc => by
        rw [jwt_decode_signed_inv _ _ _ _ _ hc]
        exact (by decide : ("account_deletion" : String) ≠ "email_verification"))
  · exact verify_email_change_token_none _ _ _
      (fun c hc => by
        rw [jwt_decode_signed_inv _ _ _ _ _ hc]
        exact (by decide : ("account_deletion" : String) ≠ "email_change"))
  · intro raw
    exact ⟨rfl, rfl, rfl, rfl⟩
  · intro c s2 hs
    have hnone : jwt_decode secret now2 (.signed c s2) = none := by
      unfold jwt_decode
      simp [hs]
    refine ⟨?_, ?_, ?_, ?_⟩ <;>
      first
      | exact verify_password_reset_token_none _ _ _ (fun c' hc => by rw [hnone] at hc; cases hc)
      | exact verify_email_verification_token_none _ _ _ (fun c' hc => by rw [hnone] at hc; cases hc)
      | exact verify_email_change_token_none _ _ _ (fun c' hc => by rw [hnone] at hc; cases hc)
      | exact verify_account_deletion_token_none _ _ _ (fun c' hc => by rw [hnone] at hc; cases hc)
  · intro c hexp
    have hnone : jwt_decode secret now2 (.signed c secret) = none := by
      unfold jwt_decode
      simp [hexp]
    refine ⟨?_, ?_, ?_, ?_⟩ <;>
      first
      | exact verify_password_reset_token_none _ _ _ (fun c' hc => by rw [hnone] at hc; cases hc)
      | exact verify_email_verification_token_none _ _ _ (fun c' hc => by rw [hnone] at hc; cases hc)
      | exact verify_email_change_token_none _ _ _ (fun c' hc => by rw [hnone] at hc; cases hc)
      | exact verify_account_deletion_token_none _ _ _ (fun c' hc => by rw [hnone] at hc; cases hc)

/-- Claim C7, witness: the cross-purpose rejections evaluated on concrete
tokens of the four purposes, minted with secret s at instant 0 and checked
at instant 0. -/
theorem token_purpose_isolation_witness :
    (verify_email_verification_token "s" 0 tokReset = none ∧
     verify_email_change_token "s" 0 tokReset = none ∧
     verify_account_deletion_token "s" 0 tokReset = none) ∧
    (verify_password_reset_token "s" 0 tokVerify = none ∧
     verify_email_change_token "s" 0 tokVerify = none ∧
     verify_account_deletion_token "s" 0 tokVerify = none) ∧
    (verify_password_reset_token "s" 0 tokChange = none ∧
     verify_email_verification_token "s" 0 tokChange = none ∧
     verify_account_deletion_token "s" 0 tokChange = none) ∧
    (verify_password_reset_token "s" 0 (create_account_deletion_token "s" 0 1) = none ∧
     verify_email_verification_token "s" 0 (create_account_deletion_token "s" 0 1) = none ∧
     verify_email_change_token "s" 0 (create_account_deletion_token "s" 0 1) = none) := by
  have h := token_purpose_isolation "s" 0 0 "a@b.co" "c@d.co" 1 tokReset tokVerify tokChange
    (by decide) (by decide) (by decide)
  exact ⟨h.1, h.2.1, h.2.2.1, h.2.2.2.1⟩

/-- The request-instant bound survives the passage of time. -/
theorem reqBound_mono {u : Account} {t t' : Time} (hle : t ≤ t')
    (hb : reqBound u t = true) : reqBound u t' = true := by
  cases hreq : u.deletion_requested_at with
  | none => simp [reqBound, hreq]
  | some r =>
    simp [reqBound, hreq] at hb ⊢
    exact le_trans hb hle

/-- Each lifecycle transition preserves invariant I1 together with the
request-instant bound. -/
theorem lifecycle_step_preserves_inv {p q : Account × Time}
    (h : LifecycleStep p q) (hi : i1 p.1 = true) (hb : reqBound p.1 p.2 = true) :
    i1 q.1 = true ∧ reqBound q.1 q.2 = true := by
  cases h with
  | request secret u u' t t' dt tok hle heq =>
    by_cases hr : u.deletion_requested_at.isSome = true
    · simp [request_account_deletion, hr] at heq
    · simp [request_account_deletion, hr] at heq
      obtain ⟨hu', hdt, htok⟩ := heq
      subst hu'
      refine ⟨?_, ?_⟩
      · simp [i1, hours]
      · simp [reqBound]
  | confirm secret u u' t t' dt tok hle heq =>
    cases hv : verify_account_deletion_token secret t' tok with
    | none => simp [confirm_account_deletion, hv] at heq
    | some uid =>
      by_cases hbq : (u.id == uid) = true
      · by_cases hrq : u.deletion_requested_at.isNone = true
        · simp [confirm_account_deletion, hv, List.find?, hbq, hrq] at heq
        · have hid : uid = u.id := (eq_of_beq hbq).symm
          subst hid
          simp [confirm_account_deletion, hv, List.find?, hbq, hrq, updateById] at heq
          obtain ⟨hu', hdt⟩ := heq
          subst hu'
          cases hreq : u.deletion_requested_at with
          | none => simp [hreq] at hrq
          | some r =>
            have hrt : r ≤ t := by simpa [reqBound, hreq] using hb
            refine ⟨?_, ?_⟩
            · simp [i1, hreq, hours]
              linarith
            · simp [reqBound, hreq]
              linarith
      · simp [confirm_account_deletion, hv, List.find?, hbq] at heq
  | cancel u u' t t' hle heq =>
    by_cases hrq : u.deletion_requested_at.isNone = true
    · simp [cancel_account_deletion, hrq] at heq
    · simp [cancel_account_deletion, hrq] at heq
      subst heq
      refine ⟨?_, ?_⟩ <;> simp [i1, reqBound]
  | login vp u u' t t' username password hle heq =>
    cases ha : authenticate_user vp [u] username password with
    | none => simp [login_for_access_token, ha] at heq
    | some w =>
      have hw : w = u := by
        have hm := authenticate_user_mem vp [u] username password w ha
        simpa using hm
      subst hw
      by_cases hvf : w.is_verified = false
      · simp [login_for_access_token, ha, hvf] at heq
      · simp [login_for_access_token, ha, hvf, updateById] at heq
        subst heq
        by_cases hrq : w.deletion_requested_at.isSome = true
        · refine ⟨?_, ?_⟩ <;> simp [login_success_update, hrq, i1, reqBound]
        · refine ⟨?_, ?_⟩
          · have hg : i1 (login_success_update w t') = i1 w := by
              simp [login_success_update, hrq, i1]
            rw [hg]
            exact hi
          · have hg : reqBound (login_success_update w t') t' = reqBound w t' := by
              simp [login_success_update, hrq, reqBound]
            rw [hg]
            exact reqBound_mono hle hb
  | sweep u u' t t' hle heq =>
    by_cases hd : dueForDeletion t' u = true
    · simp [process_pending_deletions, List.filter, hd, deleteAccount] at heq
    · simp [process_pending_deletions, List.filter, hd] at heq
      subst heq
      exact ⟨hi, reqBound_mono hle hb⟩
  | cleanup u u' t t' hle heq =>
    by_cases he : expiredRequest t' u = true
    · simp [cleanup_expired_requests, he] at heq
      subst heq
      cases hsch : u.deletion_scheduled_at with
      | some s2 => simp [expiredRequest, hsch] at he
      | none =>
        refine ⟨?_, ?_⟩
        · simp [i1, hsch]
        · simp [reqBound]
    · simp [cleanup_expired_requests, he] at heq
      subst heq
      exact ⟨hi, reqBound_mono hle hb⟩

/-- Claim C8: every account state reachable from a fresh account (both
deletion fields null) through the lifecycle operations — request, confirm,
cancel, login-cancel, sweep, cleanup — at nondecreasing instants satisfies
invariant I1: deletion_scheduled_at is non-null only if
deletion_requested_at is non-null and not after it. -/
theorem reachable_states_satisfy_I1 (u0 u : Account) (t0 t : Time)
    (hreq0 : u0.deletion_requested_at = none)
    (hsch0 : u0.deletion_scheduled_at = none)
    (hr : LifecycleReachable (u0, t0) (u, t)) :
    i1 u = true := by
  suffices h : ∀ p q : Account × Time, LifecycleReachable p q →
      i1 p.1 = true ∧ reqBound p.1 p.2 = true →
      i1 q.1 = true ∧ reqBound q.1 q.2 = true by
    have h0 : i1 u0 = true ∧ reqBound u0 t0 = true := by
      constructor <;> simp [i1, reqBound, hreq0, hsch0]
    exact (h (u0, t0) (u, t) hr h0).1
  intro p q hreach
  induction hreach with
  | refl => exact id
  | tail h1 h2 ih =>
    intro h0
    exact lifecycle_step_preserves_inv h2 (ih h0).1 (ih h0).2

/-- Claim C8, witness: the invariant evaluated at the end of a concrete
trace — a fresh account at instant 0 performing a deletion request at
instant 5. -/
theorem reachable_states_satisfy_I1_witness :
    i1 { accActive with deletion_requested_at := some 5,
                        deletion_scheduled_at := some 86405 } = true :=
  reachable_states_satisfy_I1 accActive
    { accActive with deletion_requested_at := some 5, deletion_scheduled_at := some 86405 }
    0 5 rfl rfl
    (LifecycleReachable.tail (LifecycleReachable.refl (accActive, 0))
      (LifecycleStep.request "s" accActive
        { accActive with deletion_requested_at := some 5, deletion_scheduled_at := some 86405 }
        0 5 86405 (create_account_deletion_token "s" 5 accActive.id)
        (by decide) (by decide)))

end EcoLetras
